/-
Verification of behavioural claims about the lvmbrain/gort observatory
control software. Each Python structure or function referenced by a claim
is shallowly embedded as an executable Lean definition, translated
directly from the source, and the claims are settled as theorems about
those definitions.
-/
import Mathlib

set_option linter.unusedVariables false

/-! ### Actor replies (src/gort/core.py)

An actor reply is an ordered list of reply bodies; each body is a Python
dict, embedded as an association list with unique keys appearing in
insertion order. `flatten` and `get` are translated from
`ActorReply.flatten` and `ActorReply.get`. -/

namespace GortCore

/-- A reply body: a Python dict embedded as an association list. -/
abbrev Body (V : Type) := List (String × V)

/-- `key in reply` for a body. -/
def bodyHasKey {V : Type} (b : Body V) (k : String) : Bool :=
  b.any (fun p => p.1 == k)

/-- `reply[key]`: value of the first (in a dict, unique) entry with key `k`. -/
def dictGet? {V : Type} (b : Body V) (k : String) : Option V :=
  (b.find? (fun p => p.1 == k)).map (fun p => p.2)

/-- `result[key] = value` on a Python dict: updates the entry in place if the
key exists, otherwise appends it (Python dicts preserve insertion order). -/
def dictSet {V : Type} (b : Body V) (k : String) (v : V) : Body V :=
  if bodyHasKey b k then b.map (fun p => if p.1 == k then (k, v) else p)
  else b ++ [(k, v)]

/-- The inner loop of `ActorReply.flatten`: `for key in reply: result[key] = reply[key]`. -/
def foldBody {V : Type} (acc : Body V) (b : Body V) : Body V :=
  b.foldl (fun r p => dictSet r p.1 p.2) acc

/-- `ActorReply.flatten`: folds all reply bodies into one dict, later bodies
overwriting earlier keys. -/
def flatten {V : Type} (replies : List (Body V)) : Body V :=
  replies.foldl foldBody []

/-- `ActorReply.get`: returns the value in the first body containing `key`,
or `None` if no body contains it. -/
def get {V : Type} : List (Body V) → String → Option V
  | [], _ => none
  | b :: rest, k => if bodyHasKey b k then dictGet? b k else get rest k

/-- Value of the last entry with key `k` in a body. -/
def lastGet? {V : Type} : Body V → String → Option V
  | [], _ => none
  | p :: rest, k =>
    match lastGet? rest k with
    | some v => some v
    | none => if p.1 == k then some p.2 else none

/-- Value of key `k` in the last body that contains it. -/
def lastBodyGet? {V : Type} : List (Body V) → String → Option V
  | [], _ => none
  | b :: rest, k =>
    match lastBodyGet? rest k with
    | some v => some v
    | none => if bodyHasKey b k then lastGet? b k else none

/-- A body has no duplicate keys (true of every Python dict). -/
def nodupKeys {V : Type} (b : Body V) : Prop :=
  (b.map Prod.fst).Nodup

/-- The error message built by `RemoteCommand.__call__` when the command
fails: `error = actor_reply.get("error"); error = str(error) if error is
not None else ""; raise GortError(f"Failed executing command {name}. {error}")`. -/
def commandErrorMessage (name : String) (replies : List (Body String)) : String :=
  let error := get replies "error"
  let errorStr := match error with
    | some v => v
    | none => ""
  "Failed executing command " ++ name ++ ". " ++ errorStr

end GortCore

/-! ### Tile standard-coordinate selection (src/gort/tile.py)

`Coordinates.calculate_altitude` is an external astrometric transform (the
spec treats it as a pure function); we embed a coordinate together with
its computed altitude at the time of construction. -/

namespace GortTile

/-- A standard-star coordinate, carrying the altitude (degrees) computed by
the external astrometric transform at Tile-construction time. -/
structure StandardCoordinates where
  ra : ℚ
  dec : ℚ
  altitude : ℚ
  deriving DecidableEq, Repr

/-- `Coordinates.is_observable`: altitude above the 30 degree threshold. -/
def is_observable (c : StandardCoordinates) : Bool :=
  c.altitude > 30

/-- `Tile.set_spec_coords`: keeps each coordinate unless `reject_invisible`
is set and the coordinate is not observable, in which case it is skipped. -/
def set_spec_coords (spec_coords : List StandardCoordinates)
    (reject_invisible : Bool) : List StandardCoordinates :=
  spec_coords.filter (fun coords => !(reject_invisible && !(is_observable coords)))

/-- The standards list computed by `Tile.__init__`, which calls
`set_spec_coords(spec_coords, reject_invisible=allow_replacement)`. -/
def tile_spec_coords (spec_coords : List StandardCoordinates)
    (allow_replacement : Bool) : List StandardCoordinates :=
  set_spec_coords spec_coords allow_replacement

end GortTile

/-! ### Telescope pointing verification (src/gort/devices/telescope.py)

`Telescope.goto_coordinates` issues a goto, reads back the reported
position, and compares the angular separation against 0.1 degrees; on
excess it sleeps 3 s and re-issues once with `retry=False`, and on a
second excess it disables the axes and raises a fatal pointing error.
The angular-separation function is an external pure transform, passed in
as a parameter; `reported` gives the position read back after each
attempt. -/

namespace GortTelescope

/-- A commanded or reported position (RA/Dec or Az/Alt pair, degrees). -/
abbrev Position := ℚ × ℚ

/-- Outcome of `goto_coordinates`. -/
inductive GotoResult where
  /-- The call returned normally after `attempts` motion commands, having
  slept for the settle delays listed (seconds). -/
  | success (attempts : Nat) (settleDelays : List ℚ)
  /-- A `GortTelescopeError` was raised after `attempts` motion commands;
  `axesDisabled` records whether `setEnabled(False)` was sent first. -/
  | pointingError (attempts : Nat) (settleDelays : List ℚ)
      (axesDisabled : Bool) (message : String)
  deriving DecidableEq, Repr

/-- The fatal pointing-error message raised on the second failure. -/
def pointingErrorMessage : String :=
  "Telescope failed to reach desired position. " ++
  "The axes have been disabled for safety. " ++
  "Try re-homing the telescope."

/-- `goto_coordinates` with `retry=False`: a single attempt; separation above
0.1 degrees disables the axes and raises the fatal pointing error. -/
def gotoNoRetry (sep : Position → Position → ℚ)
    (commanded reported : Position) : GotoResult :=
  if sep commanded reported > 1/10 then
    .pointingError 1 [] true pointingErrorMessage
  else
    .success 1 []

/-- `goto_coordinates` with the default `retry=True`: if the first readback
separation exceeds 0.1 degrees, sleep 3 s and re-issue once with
`retry=False`; `reported1`/`reported2` are the positions read back after the
first and (if reached) second motion command. -/
def goto_coordinates (sep : Position → Position → ℚ)
    (commanded reported1 reported2 : Position) : GotoResult :=
  if sep commanded reported1 > 1/10 then
    match gotoNoRetry sep commanded reported2 with
    | .success attempts delays => .success (attempts + 1) (3 :: delays)
    | .pointingError attempts delays disabled msg =>
        .pointingError (attempts + 1) (3 :: delays) disabled msg
  else
    .success 1 []

end GortTelescope

/-! ### Standards micro-scheduler time budget (src/gort/observer.py)

`Standards._iterate` returns immediately when there are zero or one
standards; otherwise it computes the per-target dwell budget
`time_per_position = exposure_time / n_stds - ACQ_PER_STD` with
`ACQ_PER_STD = 30`, falling back to `exposure_time / n_stds` with a
warning when that is negative. -/

namespace GortStandards

/-- `ACQ_PER_STD`: fixed acquisition overhead per standard, seconds. -/
def ACQ_PER_STD : ℚ := 30

/-- The per-target dwell budget computed by `Standards._iterate`, together
with whether the fallback warning is logged. `none` when the iteration
returns before computing a budget (zero or one standards). -/
def standardsBudget (exposure_time : ℚ) (n_stds : Nat) : Option (ℚ × Bool) :=
  if n_stds ≤ 1 then none
  else
    let time_per_position := exposure_time / n_stds - ACQ_PER_STD
    if time_per_position < 0 then some (exposure_time / n_stds, true)
    else some (time_per_position, false)

end GortStandards

/-! ### Device-set fan-out (src/gort/gort.py)

`GortDeviceSet.call_device_method` and `_send_command_all` both run one
task per member with `await asyncio.gather(*tasks)` (default
`return_exceptions=False`). We embed each member task under the
cooperative single-threaded scheduler as a number of awaits until
completion plus a result. `asyncio.gather` with the default flag resolves
with the list of results, in argument order, when every task succeeds; if
a task raises, the exception is propagated to the awaiter as soon as it
occurs, while the remaining tasks keep running but their results are
discarded. -/

namespace GortDeviceSet

/-- A member task under the cooperative scheduler: it completes after
`dur` time units with `result`. -/
structure SimTask (α : Type) where
  dur : Nat
  result : Except String α
  deriving Repr

/-- Whether a task raises. -/
def SimTask.fails {α : Type} (t : SimTask α) : Bool :=
  match t.result with
  | .error _ => true
  | .ok _ => false

/-- The earliest-raising task, if any: minimal completion time among the
failing tasks, earliest in argument order on ties. Its exception is the
one `asyncio.gather` propagates. -/
def firstFailure {α : Type} : List (SimTask α) → Option (Nat × String)
  | [] => none
  | t :: rest =>
    match t.result, firstFailure rest with
    | .error e, none => some (t.dur, e)
    | .error e, some (d, e') =>
        if d < t.dur then some (d, e') else some (t.dur, e)
    | .ok _, acc => acc

/-- The successful results, in argument order. -/
def okResults {α : Type} (ts : List (SimTask α)) : List α :=
  ts.filterMap (fun t => t.result.toOption)

/-- Result delivered by `await asyncio.gather(*tasks)` with the default
`return_exceptions=False`. -/
def gather {α : Type} (ts : List (SimTask α)) : Except String (List α) :=
  match firstFailure ts with
  | some (_, e) => .error e
  | none => .ok (okResults ts)

/-- The time at which the `await asyncio.gather(*tasks)` expression
resumes the awaiter: when every task has finished if all succeed, and at
the first raise otherwise. -/
def gatherCompletesAt {α : Type} (ts : List (SimTask α)) : Nat :=
  match firstFailure ts with
  | some (d, _) => d
  | none => (ts.map SimTask.dur).foldl max 0

/-- `GortDeviceSet.call_device_method` core: one task per device of the
set, in member order, joined with `asyncio.gather`. -/
def call_device_method {δ α : Type} (devices : List δ)
    (method : δ → SimTask α) : Except String (List α) :=
  gather (devices.map method)

end GortDeviceSet

/-! ### Standards table and `cancel` (src/gort/observer.py)

The `Standards` class keeps a per-standard table with 1-based index and
columns `acquired`, `observed`, `t0`, `t1`, `fibre` (numeric defaults 0,
embedded as `none`/`false`). `start_iterating` marks row 1 acquired;
`_iterate` advances the active standard, marking the previous row
observed and, only when guiding converges on the new field, marking the
new row acquired; `cancel` closes the interval of the active row when it
is acquired but not yet observed. -/

namespace GortStandards

/-- One row of the standards table. -/
structure StdRow where
  acquired : Bool := false
  observed : Bool := false
  t0 : Option ℚ := none
  t1 : Option ℚ := none
  fibre : String := ""
  deriving DecidableEq, Repr

/-- The mutable state of a `Standards` instance: the table rows (row `i`
of the table is entry `i - 1` of the list) and the 1-based index of the
active standard. -/
structure StandardsState where
  rows : List StdRow
  current_standard : Nat
  deriving DecidableEq, Repr

/-- The active row, `standards.loc[current_standard]`. -/
def activeRow (s : StandardsState) : Option StdRow :=
  s.rows.get? (s.current_standard - 1)

/-- Replace the active row. -/
def setActiveRow (s : StandardsState) (row : StdRow) : StandardsState :=
  { s with rows := s.rows.set (s.current_standard - 1) row }

/-- The state produced by `start_iterating` for `n` standards (`n ≥ 1`):
a fresh table with row 1 marked acquired at time `t0` on the first mask
position. -/
def startState (n : Nat) (t0 : ℚ) (fibre0 : String) : StandardsState :=
  let fresh : List StdRow := List.replicate n {}
  let s : StandardsState := { rows := fresh, current_standard := 1 }
  match activeRow s with
  | some row => setActiveRow s { row with acquired := true, t0 := some t0, fibre := fibre0 }
  | none => s

/-- One advance step of `_iterate` when the per-target budget is exhausted
and standards remain: the previous active row gets `observed = 1` and
`t1 = tPrevEnd`, `current_standard` is incremented, and only if guiding
converges within 60 s (`guideConverged`) is the new row marked acquired at
`tNewStart` on `fibre`; on a convergence timeout the new row is skipped
and left untouched. -/
def advanceStandard (s : StandardsState) (tPrevEnd tNewStart : ℚ)
    (fibre : String) (guideConverged : Bool) : StandardsState :=
  let s1 := match activeRow s with
    | some row => setActiveRow s { row with observed := true, t1 := some tPrevEnd }
    | none => s
  let s2 := { s1 with current_standard := s1.current_standard + 1 }
  if guideConverged then
    match activeRow s2 with
    | some row => setActiveRow s2 { row with acquired := true, t0 := some tNewStart, fibre := fibre }
    | none => s2
  else
    s2

/-- `Standards.cancel`: stops the iterate task and, when the table is
non-empty and the active row is acquired but not yet observed, marks it
observed with end timestamp `now`. -/
def cancel (s : StandardsState) (now : ℚ) : StandardsState :=
  if s.rows.length = 0 then s
  else
    match activeRow s with
    | some row =>
      if row.acquired && !row.observed then
        setActiveRow s { row with observed := true, t1 := some now }
      else s
    | none => s

end GortStandards

/-! ### Overwatcher daytime handler (src/gort/overwatcher/overwatcher.py)

`OverwatcherMainTask.handle_daytime` runs on ticks where conditions are
safe and `is_night` is false. The embedding returns the effects of one
invocation: the new `_pending_close_dome` flag, whether
`stop_observing` was called and with which `immediate` value, and whether
the dome-close branch ran. -/

namespace GortOverwatcher

/-- Observable effects of one `handle_daytime` invocation. -/
structure DaytimeEffects where
  pending_close_dome : Bool
  stop_immediate : Option Bool
  close_dome : Bool
  deriving DecidableEq, Repr

/-- `handle_daytime`, translated line by line. `prevNight`/`curNight` are
`self.previous_state.night` and `self.overwatcher.state.night`;
`pending` is `self._pending_close_dome` on entry; `domeIsClosing` is the
result of `dome.is_closing()` in the close branch. The arming condition is
the source's `if not self.previous_state.night and not
self.overwatcher.state.night`. -/
def handle_daytime (calibrating enabled : Bool) (prevNight curNight : Bool)
    (observing cancelling : Bool) (exposure_finishes_at now : ℚ)
    (pending domeIsClosing : Bool) : DaytimeEffects :=
  if calibrating then ⟨pending, none, false⟩
  else if !enabled then ⟨pending, none, false⟩
  else
    let pending1 := if !prevNight && !curNight then true else pending
    if observing && !cancelling then
      let immediate : Bool :=
        !(exposure_finishes_at > 0 && exposure_finishes_at - now < 300)
      if !immediate then ⟨pending1, some false, false⟩
      else
        -- `stop_observing(immediate=True)` is awaited and the handler falls
        -- through, but the local `observing` is still `True`, so the close
        -- branch is not taken on this tick.
        ⟨pending1, some true, false⟩
    else if !observing && pending1 then
      ⟨false, none, !domeIsClosing⟩
    else ⟨pending1, none, false⟩

end GortOverwatcher

/-! ### Notifier de-duplication (src/gort/overwatcher/helpers/notifier.py)

`NotifierMixIn.notify` resolves the level, message and Slack channel,
hashes `(message, level, error, slack_channel, payload)`, suppresses the
outward Slack channel when the hash was delivered within the repeat
window, always performs the log write and the `/notifications/create`
POST (which writes to the database when `database` is set), and finally
records `now + min_time_between_repeat_notifications` for the hash. The
MD5 digest is embedded as the joined pre-image string (identical inputs
give identical digests). Errors are modelled as strings, for which the
code computes no traceback. -/

namespace GortNotifier

/-- The Python `slack_channel` argument: `None`, `True`, `False` or a
channel name. -/
inductive SlackChannelArg where
  | noArg
  | yes
  | no
  | name (s : String)
  deriving DecidableEq, Repr

/-- `level = level or ("error" if error is not None else "info")`. -/
def resolve_level (level : Option String) (error : Option String) : String :=
  match level with
  | some l => l
  | none => if error.isSome then "error" else "info"

/-- `message = message or ""`, then prepend the error text when empty. -/
def resolve_message (message : Option String) (error : Option String) : String :=
  let m := match message with
    | some s => s
    | none => ""
  match error with
  | some e => if m = "" then " " ++ e else m
  | none => m

/-- `if slack_channel is None or slack_channel is True: slack_channel =
slack_config["notifications_channel"]`. -/
def resolve_channel (arg : SlackChannelArg) (configChannel : String) : SlackChannelArg :=
  match arg with
  | .noArg => .name configChannel
  | .yes => .name configChannel
  | other => other

/-- `create_notification_hash`: the joined hash elements (`str(x) if x
else ""` for each of message, level, error, channel-if-string, payload). -/
def create_notification_hash (message level : String) (error : Option String)
    (slack_channel : SlackChannelArg) (payload : String) : String :=
  let message_el := if message = "" then "" else message
  let level_el := if level = "" then "" else level
  let error_el := match error with
    | some e => if e = "" then "" else e
    | none => ""
  let channel_el := match slack_channel with
    | .name s => s
    | _ => ""
  let payload_el := if payload = "" then "" else payload
  message_el ++ level_el ++ error_el ++ channel_el ++ payload_el

/-- `notification_history` lookup (`dict.get`), same dict embedding as
reply bodies. -/
def lookup_history (h : List (String × ℚ)) (key : String) : Option ℚ :=
  GortCore.dictGet? h key

/-- `notification_history[key] = v` (dict assignment). -/
def set_history (h : List (String × ℚ)) (key : String) (v : ℚ) : List (String × ℚ) :=
  GortCore.dictSet h key v

/-- Arguments of one `notify` call (defaults as in the source). -/
structure NotifyArgs where
  message : Option String := none
  level : Option String := none
  error : Option String := none
  slack_channel : SlackChannelArg := .noArg
  database : Bool := true
  log : Bool := true
  payload : String := ""
  allow_repeat_notifications : Bool := false
  min_time_between_repeat_notifications : ℚ := 60

/-- Observable effects of one `notify` call. -/
structure NotifyOutcome where
  logged : Bool
  db_write : Bool
  slack_delivered : Bool
  history : List (String × ℚ)
  deriving Repr

/-- `NotifierMixIn.notify`, translated from the source. `configChannel`
is `overwatcher.slack.notifications_channel`; `now` is `time()`. -/
def notify (history : List (String × ℚ)) (configChannel : String)
    (a : NotifyArgs) (now : ℚ) : NotifyOutcome :=
  let level := resolve_level a.level a.error
  let message := resolve_message a.message a.error
  let channel0 := resolve_channel a.slack_channel configChannel
  let notification_hash :=
    create_notification_hash message level a.error channel0 a.payload
  let next_notification_time := lookup_history history notification_hash
  let suppressed : Bool :=
    !a.allow_repeat_notifications &&
      (match next_notification_time with
        | some t => !(t == 0) && t > now
        | none => false)
  let channel := if suppressed then SlackChannelArg.no else channel0
  let slack_delivered := match channel with
    | .name _ => true
    | _ => false
  let history' :=
    set_history history notification_hash
      (now + a.min_time_between_repeat_notifications)
  ⟨a.log, a.database, slack_delivered, history'⟩

end GortNotifier

/-! ### Dome helper (src/gort/overwatcher/helpers.py)

`DomeStatus` is an `enum.Flag`; `DomeHelper.status` parses the enclosure
label set into a flag union, and `open`/`close` decide between returning
immediately, stopping first, or commanding the motion by comparing the
status with `==` against single flags. -/

namespace GortDome

/-- The `DomeStatus` flag union: one boolean per flag bit. -/
structure DomeStatus where
  OPEN : Bool := false
  CLOSED : Bool := false
  OPENING : Bool := false
  CLOSING : Bool := false
  MOVING : Bool := false
  UNKNOWN : Bool := false
  deriving DecidableEq, Repr

/-- `DomeStatus.OPEN` as a value. -/
def flagOPEN : DomeStatus := { OPEN := true }

/-- `DomeStatus.CLOSED` as a value. -/
def flagCLOSED : DomeStatus := { CLOSED := true }

/-- `DomeStatus.OPENING` as a value. -/
def flagOPENING : DomeStatus := { OPENING := true }

/-- `DomeStatus.CLOSING` as a value. -/
def flagCLOSING : DomeStatus := { CLOSING := true }

/-- `DomeStatus.MOVING` as a value. -/
def flagMOVING : DomeStatus := { MOVING := true }

/-- `DomeStatus.UNKNOWN` as a value. -/
def flagUNKNOWN : DomeStatus := { UNKNOWN := true }

/-- Flag union `a | b`. -/
def DomeStatus.union (a b : DomeStatus) : DomeStatus :=
  ⟨a.OPEN || b.OPEN, a.CLOSED || b.CLOSED, a.OPENING || b.OPENING,
    a.CLOSING || b.CLOSING, a.MOVING || b.MOVING, a.UNKNOWN || b.UNKNOWN⟩

/-- `DomeHelper.status`: parses the `dome_status_labels` set reported by
the enclosure into a flag union. -/
def status (labels : List String) : DomeStatus :=
  if labels.contains "MOTOR_OPENING" then flagOPENING.union flagMOVING
  else if labels.contains "MOTOR_CLOSING" then flagCLOSING.union flagMOVING
  else if labels.contains "OPEN" then
    if labels.contains "MOVING" then flagOPENING.union flagMOVING
    else flagOPEN
  else if labels.contains "CLOSED" then
    if labels.contains "MOVING" then flagCLOSING.union flagMOVING
    else flagCLOSED
  else flagUNKNOWN

/-- What `DomeHelper.open`/`close` do after reading the status. -/
inductive DomeAction where
  /-- Early return: no stop and no motion command issued. -/
  | noop
  /-- `stop()` forced first, then `_move` issues the motion command. -/
  | stopThenMove
  /-- `_move` issues the motion command directly. -/
  | move
  deriving DecidableEq, Repr

/-- The decision logic of `DomeHelper.open`: early-returns when the status
equals `DomeStatus.OPEN` or `DomeStatus.OPENING` exactly, forces a stop
first when it equals `DomeStatus.UNKNOWN`, and otherwise moves. -/
def openDome (current : DomeStatus) : DomeAction :=
  if current = flagOPEN then .noop
  else if current = flagOPENING then .noop
  else if current = flagUNKNOWN then .stopThenMove
  else .move

/-- The decision logic of `DomeHelper.close`, symmetric to `openDome`. -/
def closeDome (current : DomeStatus) : DomeAction :=
  if current = flagCLOSED then .noop
  else if current = flagCLOSING then .noop
  else if current = flagUNKNOWN then .stopThenMove
  else .move

end GortDome

/-! ## Theorems -/

namespace GortCore

theorem bodyHasKey_cons {V : Type} (p : String × V) (rest : Body V) (k : String) :
    bodyHasKey (p :: rest) k = ((p.1 == k) || bodyHasKey rest k) := by
  simp [bodyHasKey, List.any_cons]

theorem dictGet?_cons {V : Type} (p : String × V) (rest : Body V) (k : String) :
    dictGet? (p :: rest) k = if p.1 == k then some p.2 else dictGet? rest k := by
  by_cases h : p.1 == k <;> simp [dictGet?, List.find?_cons, h]

theorem dictGet?_eq_none_of_not_hasKey {V : Type} (b : Body V) (k : String)
    (h : bodyHasKey b k = false) : dictGet? b k = none := by
  induction b with
  | nil => rfl
  | cons p rest ih =>
    rw [bodyHasKey_cons] at h
    simp only [Bool.or_eq_false_iff] at h
    rw [dictGet?_cons, h.1, if_neg (by simp)]
    exact ih h.2

theorem lastGet?_eq_none_of_not_hasKey {V : Type} (b : Body V) (k : String)
    (h : bodyHasKey b k = false) : lastGet? b k = none := by
  induction b with
  | nil => rfl
  | cons p rest ih =>
    rw [bodyHasKey_cons] at h
    simp only [Bool.or_eq_false_iff] at h
    rw [lastGet?, ih h.2, h.1]
    simp

theorem lastGet?_isSome_of_hasKey {V : Type} (b : Body V) (k : String)
    (h : bodyHasKey b k = true) : (lastGet? b k).isSome = true := by
  induction b with
  | nil => simp [bodyHasKey] at h
  | cons p rest ih =>
    rw [bodyHasKey_cons] at h
    rw [lastGet?]
    cases hrest : lastGet? rest k with
    | some v => simp
    | none =>
      cases hp : (p.1 == k) with
      | true => simp [hp]
      | false =>
        rcases Bool.or_eq_true_iff.mp h with h1 | h2
        · exact absurd h1 (by simp [hp])
        · have := ih h2
          rw [hrest] at this
          simp at this

theorem dictGet?_map_update {V : Type} (b : Body V) (k : String) (v : V)
    (h : bodyHasKey b k = true) :
    dictGet? (b.map fun p => if p.1 == k then (k, v) else p) k = some v := by
  induction b with
  | nil => simp [bodyHasKey] at h
  | cons p rest ih =>
    rw [bodyHasKey_cons] at h
    rw [List.map_cons]
    cases hp : (p.1 == k) with
    | true =>
      rw [if_pos (by simp [hp]), dictGet?_cons]
      simp
    | false =>
      rw [if_neg (by simp [hp]), dictGet?_cons, if_neg (by simp [hp])]
      rcases Bool.or_eq_true_iff.mp h with h1 | h2
      · exact absurd h1 (by simp [hp])
      · exact ih h2

theorem dictGet?_dictSet_self {V : Type} (b : Body V) (k : String) (v : V) :
    dictGet? (dictSet b k v) k = some v := by
  unfold dictSet
  cases h : bodyHasKey b k with
  | true =>
    simp only [if_true]
    exact dictGet?_map_update b k v h
  | false =>
    simp only [Bool.false_eq_true, if_false]
    induction b with
    | nil => simp [dictGet?, List.find?]
    | cons p rest ih =>
      rw [bodyHasKey_cons] at h
      simp only [Bool.or_eq_false_iff] at h
      rw [List.cons_append, dictGet?_cons, h.1, if_neg (by simp)]
      exact ih h.2

theorem string_beq_symm_false {k k' : String} (h : (k' == k) = false) :
    (k == k') = false := by
  cases hkk : (k == k') with
  | false => rfl
  | true =>
    have hk : k = k' := by simpa using hkk
    subst hk
    simp at h

theorem dictGet?_map_update_other {V : Type} (b : Body V) (k k' : String) (v : V)
    (h : (k' == k) = false) :
    dictGet? (b.map fun p => if p.1 == k then (k, v) else p) k' = dictGet? b k' := by
  induction b with
  | nil => rfl
  | cons p rest ih =>
    rw [List.map_cons]
    cases hp : (p.1 == k) with
    | true =>
      have hpk : p.1 = k := by simpa using hp
      rw [if_pos (by simp [hp]), dictGet?_cons, dictGet?_cons]
      simp only [string_beq_symm_false h, hpk]
      rw [if_neg (by simp [string_beq_symm_false h]),
        if_neg (by simp [string_beq_symm_false h])]
      exact ih
    | false =>
      rw [if_neg (by simp [hp]), dictGet?_cons, dictGet?_cons]
      cases hp' : (p.1 == k') with
      | true => simp [hp']
      | false => simpa [hp'] using ih

theorem dictGet?_append_single_other {V : Type} (b : Body V) (k k' : String) (v : V)
    (h : (k' == k) = false) : dictGet? (b ++ [(k, v)]) k' = dictGet? b k' := by
  induction b with
  | nil =>
    simp only [List.nil_append]
    rw [dictGet?_cons]
    simp [string_beq_symm_false h, dictGet?]
  | cons p rest ih =>
    rw [List.cons_append, dictGet?_cons, dictGet?_cons]
    cases hp : (p.1 == k') with
    | true => simp [hp]
    | false => simpa [hp] using ih

theorem dictGet?_dictSet_other {V : Type} (b : Body V) (k k' : String) (v : V)
    (h : (k' == k) = false) : dictGet? (dictSet b k v) k' = dictGet? b k' := by
  unfold dictSet
  cases hk : bodyHasKey b k with
  | true =>
    simp only [if_true]
    exact dictGet?_map_update_other b k k' v h
  | false =>
    simp only [Bool.false_eq_true, if_false]
    exact dictGet?_append_single_other b k k' v h

theorem dictGet?_foldBody {V : Type} (b acc : Body V) (k : String) :
    dictGet? (foldBody acc b) k =
      match lastGet? b k with
      | some v => some v
      | none => dictGet? acc k := by
  induction b generalizing acc with
  | nil => rfl
  | cons p rest ih =>
    show dictGet? (foldBody (dictSet acc p.1 p.2) rest) k = _
    rw [ih]
    rw [lastGet?]
    cases hrest : lastGet? rest k with
    | some v => rfl
    | none =>
      cases hp : (p.1 == k) with
      | true =>
        have hpk : p.1 = k := by simpa using hp
        subst hpk
        simpa using dictGet?_dictSet_self acc p.1 p.2
      | false =>
        simpa using dictGet?_dictSet_other acc p.1 k p.2 (string_beq_symm_false hp)

theorem dictGet?_flatten_aux {V : Type} (replies : List (Body V)) (acc : Body V)
    (k : String) :
    dictGet? (replies.foldl foldBody acc) k =
      match lastBodyGet? replies k with
      | some v => some v
      | none => dictGet? acc k := by
  induction replies generalizing acc with
  | nil => rfl
  | cons b rest ih =>
    show dictGet? (rest.foldl foldBody (foldBody acc b)) k = _
    rw [ih, lastBodyGet?]
    cases hrest : lastBodyGet? rest k with
    | some v => rfl
    | none =>
      rw [dictGet?_foldBody]
      cases hb : bodyHasKey b k with
      | true =>
        obtain ⟨v, hv⟩ := Option.isSome_iff_exists.mp (lastGet?_isSome_of_hasKey b k hb)
        simp [hb, hv]
      | false =>
        simp [hb, lastGet?_eq_none_of_not_hasKey b k hb]

theorem dictGet?_flatten {V : Type} (replies : List (Body V)) (k : String) :
    dictGet? (flatten replies) k = lastBodyGet? replies k := by
  rw [flatten, dictGet?_flatten_aux]
  cases h : lastBodyGet? replies k with
  | some v => rfl
  | none => rfl

theorem lastGet?_eq_dictGet?_of_nodup {V : Type} (b : Body V) (k : String)
    (h : nodupKeys b) : lastGet? b k = dictGet? b k := by
  induction b with
  | nil => rfl
  | cons p rest ih =>
    rw [nodupKeys, List.map_cons, List.nodup_cons] at h
    rw [lastGet?, dictGet?_cons]
    cases hp : (p.1 == k) with
    | true =>
      have hpk : p.1 = k := by simpa using hp
      subst hpk
      have hno : bodyHasKey rest p.1 = false := by
        cases hh : bodyHasKey rest p.1 with
        | false => rfl
        | true =>
          exfalso
          rw [bodyHasKey, List.any_eq_true] at hh
          obtain ⟨q, hq, hq1⟩ := hh
          have hq1' : q.1 = p.1 := by simpa using hq1
          have hmem : p.1 ∈ rest.map Prod.fst := by
            rw [← hq1']
            exact List.mem_map_of_mem Prod.fst hq
          exact h.1 hmem
      rw [lastGet?_eq_none_of_not_hasKey rest p.1 hno]
      simp
    | false =>
      rw [ih h.2]
      cases hrest : dictGet? rest k with
      | some v => rfl
      | none => simp [hp]

theorem get_append_of_not_hasKey {V : Type} (pre rest : List (Body V)) (k : String)
    (h : ∀ b ∈ pre, bodyHasKey b k = false) :
    get (pre ++ rest) k = get rest k := by
  induction pre with
  | nil => rfl
  | cons b pre' ih =>
    rw [List.cons_append]
    show (if bodyHasKey b k then dictGet? b k else get (pre' ++ rest) k) = _
    rw [h b (by simp), if_neg (by simp)]
    exact ih (fun b' hb' => h b' (by simp [hb']))

theorem lastBodyGet?_eq_none_of_not_hasKey {V : Type} (post : List (Body V))
    (k : String) (h : ∀ b ∈ post, bodyHasKey b k = false) :
    lastBodyGet? post k = none := by
  induction post with
  | nil => rfl
  | cons b post' ih =>
    simp only [lastBodyGet?]
    rw [ih (fun b' hb' => h b' (List.mem_cons_of_mem b hb')),
      h b (List.mem_cons_self b post')]
    simp

theorem lastBodyGet?_append_of_not_hasKey {V : Type} (replies post : List (Body V))
    (k : String) (h : ∀ b ∈ post, bodyHasKey b k = false) :
    lastBodyGet? (replies ++ post) k = lastBodyGet? replies k := by
  induction replies with
  | nil => simpa using lastBodyGet?_eq_none_of_not_hasKey post k h
  | cons b replies' ih =>
    simp only [List.cons_append, lastBodyGet?, List.append_eq, ih]

theorem bodyHasKey_of_dictGet?_some {V : Type} (b : Body V) (k : String) (v : V)
    (h : dictGet? b k = some v) : bodyHasKey b k = true := by
  cases hb : bodyHasKey b k with
  | true => rfl
  | false => rw [dictGet?_eq_none_of_not_hasKey b k hb] at h; exact absurd h (by simp)

end GortCore

namespace GortCore

theorem lastBodyGet?_concat_hasKey {V : Type} (Y : List (Body V)) (b2 : Body V)
    (k : String) (h : bodyHasKey b2 k = true) :
    lastBodyGet? (Y ++ [b2]) k = lastGet? b2 k := by
  induction Y with
  | nil =>
    simp only [List.nil_append, lastBodyGet?]
    rw [h]
    simp
  | cons b Y' ih =>
    obtain ⟨v, hv⟩ := Option.isSome_iff_exists.mp (lastGet?_isSome_of_hasKey b2 k h)
    simp only [List.cons_append, lastBodyGet?, List.append_eq, ih, hv]

/-- C1: for every ActorReply whose ordered reply bodies contain a key `k` —
first in body `b1` with value `v1`, last in body `b2` with value `v2` —
`flatten()` maps `k` to `v2` (later bodies overwrite earlier keys on
conflict) while `get(k)` returns `v1` (the first body containing `k`
wins): the two accessors are asymmetric exactly as the spec states. -/
theorem c1_flatten_get_asymmetry {V : Type} (pre mid post : List (Body V))
    (b1 b2 : Body V) (k : String) (v1 v2 : V) (replies : List (Body V))
    (hsplit : replies = pre ++ b1 :: mid ++ b2 :: post)
    (hpre : ∀ b ∈ pre, bodyHasKey b k = false)
    (hpost : ∀ b ∈ post, bodyHasKey b k = false)
    (hb1 : dictGet? b1 k = some v1)
    (hb2 : dictGet? b2 k = some v2)
    (hnd2 : nodupKeys b2) :
    dictGet? (flatten replies) k = some v2 ∧ get replies k = some v1 := by
  constructor
  · rw [dictGet?_flatten]
    have hre : replies = ((pre ++ b1 :: mid) ++ [b2]) ++ post := by
      rw [hsplit]
      simp [List.append_assoc]
    rw [hre, lastBodyGet?_append_of_not_hasKey _ post k hpost,
      lastBodyGet?_concat_hasKey _ b2 k (bodyHasKey_of_dictGet?_some b2 k v2 hb2),
      lastGet?_eq_dictGet?_of_nodup b2 k hnd2]
    exact hb2
  · rw [hsplit, List.append_assoc, List.cons_append,
      get_append_of_not_hasKey pre (b1 :: (mid ++ b2 :: post)) k hpre]
    simp only [get, bodyHasKey_of_dictGet?_some b1 k v1 hb1]
    simpa using hb1

/-- Witness for C1: two bodies assigning `k1` the values `1` then `2`. -/
theorem c1_flatten_get_asymmetry_witness :
    dictGet? (flatten [[("k1", 1)], [("k1", 2)]]) "k1" = some 2 ∧
      get [[("k1", 1)], [("k1", 2)]] "k1" = some 1 :=
  c1_flatten_get_asymmetry [] [] [] [("k1", 1)] [("k1", 2)] "k1" 1 2
    [[("k1", 1)], [("k1", 2)]] (by decide) (by decide) (by decide)
    (by decide) (by decide) (by simp [nodupKeys])

/-- C10: for every ActorReply and every key that appears in none of its
reply bodies, `get(key)` returns `None` rather than raising, and the
`RemoteCommand.__call__` failure path then builds its error message with
the empty error text. -/
theorem c10_get_missing_key (replies : List (Body String)) (name key : String)
    (h : ∀ b ∈ replies, bodyHasKey b key = false) :
    get replies key = none ∧
      (key = "error" →
        commandErrorMessage name replies = "Failed executing command " ++ name ++ ". ") := by
  have h1 : get replies key = none := by
    have h2 := get_append_of_not_hasKey replies [] key h
    simpa using h2
  refine ⟨h1, fun hk => ?_⟩
  subst hk
  simp only [commandErrorMessage, h1, String.append_empty]

/-- Witness for C10: a reply whose only body has no `error` key. -/
theorem c10_get_missing_key_witness :
    get [[("text", "hi")]] "error" = none ∧
      ("error" = "error" →
        commandErrorMessage "focus" [[("text", "hi")]] =
          "Failed executing command " ++ "focus" ++ ". ") :=
  c10_get_missing_key [[("text", "hi")]] "focus" "error" (by decide)

end GortCore

namespace GortTile

/-- C2 counterexample: a Tile built with `allow_replacement=False` from a
single standard whose computed altitude is 10° (not observable, since
10 ≤ 30) keeps that standard: the resulting standards list equals the
input and its length is still 1, so the invalid entry is neither dropped
nor replaced and the length does not decrease, contrary to the claim. -/
theorem c2_counterexample :
    is_observable ⟨100, -40, 10⟩ = false ∧
      tile_spec_coords [⟨100, -40, 10⟩] false = [⟨100, -40, 10⟩] ∧
      (tile_spec_coords [⟨100, -40, 10⟩] false).length = 1 := by
  decide

/-- C2 amended: `Tile.__init__` forwards `allow_replacement` as
`reject_invisible`, so with `allow_replacement=False` every standard is
kept unchanged regardless of observability (length unchanged), while with
`allow_replacement=True` the non-observable standards are dropped — never
replaced — and the list shrinks to its observable entries. -/
theorem c2_spec_coords_replacement_policy (spec_coords : List StandardCoordinates) :
    tile_spec_coords spec_coords false = spec_coords ∧
      tile_spec_coords spec_coords true = spec_coords.filter is_observable := by
  constructor
  · simp [tile_spec_coords, set_spec_coords]
  · simp [tile_spec_coords, set_spec_coords]

end GortTile

namespace GortTelescope

/-- C4: for every goto, the position read back after the motion command is
compared with the commanded one through the angular-separation function;
when the separation exceeds 0.1° exactly one retry is performed after a
3 s settle delay, and when the retry's readback still exceeds 0.1° the
axes are disabled and the fatal pointing error naming the need to re-home
is raised; when the retry is within 0.1° the call returns success. -/
theorem c4_goto_retry (sep : Position → Position → ℚ)
    (commanded reported1 reported2 : Position)
    (h1 : sep commanded reported1 > 1/10) :
    (sep commanded reported2 > 1/10 →
        goto_coordinates sep commanded reported1 reported2 =
          .pointingError 2 [3] true pointingErrorMessage) ∧
      (sep commanded reported2 ≤ 1/10 →
        goto_coordinates sep commanded reported1 reported2 = .success 2 [3]) := by
  constructor
  · intro h2
    simp only [goto_coordinates, gotoNoRetry, if_pos h1, if_pos h2]
  · intro h2
    simp only [goto_coordinates, gotoNoRetry, if_pos h1, if_neg (not_lt.mpr h2)]

/-- Witness for C4 at the spec's example: commanded (10, 20), first
readback 0.2° away, retry readback on target: one retry with a 3 s delay
and success on the second attempt. -/
theorem c4_goto_retry_witness :
    (fun a b : Position => |a.1 - b.1| + |a.2 - b.2|) (10, 20) (10, 20 + 1/5) > 1/10 ∧
      (fun a b : Position => |a.1 - b.1| + |a.2 - b.2|) (10, 20) (10, 20) ≤ 1/10 ∧
      goto_coordinates (fun a b => |a.1 - b.1| + |a.2 - b.2|)
        (10, 20) (10, 20 + 1/5) (10, 20) = .success 2 [3] :=
  ⟨by norm_num [abs_of_pos], by norm_num,
    (c4_goto_retry (fun a b => |a.1 - b.1| + |a.2 - b.2|)
      (10, 20) (10, 20 + 1/5) (10, 20) (by norm_num [abs_of_pos])).2 (by norm_num)⟩

end GortTelescope

namespace GortStandards

/-- C5: for every standards iteration over `n_stds ≥ 2` targets within an
exposure of duration `E`, the per-target dwell budget is
`T = E / n_stds − 30`; whenever `T` is negative the scheduler falls back
to `T = E / n_stds` and logs a warning. In particular `n_stds = 4`,
`E = 600` gives `T = 120` with no warning, and `n_stds = 4`, `E = 60`
falls back to `T = 15` with a warning. -/
theorem c5_standards_budget (exposure_time : ℚ) (n_stds : Nat) (h : 2 ≤ n_stds) :
    (0 ≤ exposure_time / n_stds - ACQ_PER_STD →
        standardsBudget exposure_time n_stds =
          some (exposure_time / n_stds - ACQ_PER_STD, false)) ∧
      (exposure_time / n_stds - ACQ_PER_STD < 0 →
        standardsBudget exposure_time n_stds =
          some (exposure_time / n_stds, true)) ∧
      standardsBudget 600 4 = some (120, false) ∧
      standardsBudget 60 4 = some (15, true) := by
  have hn : ¬ n_stds ≤ 1 := by omega
  refine ⟨fun hpos => ?_, fun hneg => ?_, ?_, ?_⟩
  · simp only [standardsBudget, if_neg hn, if_neg (not_lt.mpr hpos)]
  · simp only [standardsBudget, if_neg hn, if_pos hneg]
  · norm_num [standardsBudget, ACQ_PER_STD]
  · norm_num [standardsBudget, ACQ_PER_STD]

/-- Witness for C5 at the spec's two examples. -/
theorem c5_standards_budget_witness :
    2 ≤ 4 ∧ standardsBudget 600 4 = some (120, false) ∧
      standardsBudget 60 4 = some (15, true) :=
  ⟨by norm_num, (c5_standards_budget 600 4 (by norm_num)).2.2.1,
    (c5_standards_budget 60 4 (by norm_num)).2.2.2⟩

end GortStandards

namespace GortDeviceSet

theorem firstFailure_eq_none_of_ok {α : Type} (ts : List (SimTask α))
    (h : ∀ t ∈ ts, t.fails = false) : firstFailure ts = none := by
  induction ts with
  | nil => rfl
  | cons t rest ih =>
    have ht : t.fails = false := h t (List.mem_cons_self t rest)
    have hrest := ih (fun t' ht' => h t' (List.mem_cons_of_mem t ht'))
    cases hres : t.result with
    | ok v => simp [firstFailure, hres, hrest]
    | error e => rw [SimTask.fails, hres] at ht; simp at ht

theorem okResults_map {δ α : Type} (devices : List δ) (method : δ → SimTask α)
    (values : δ → α) (h : ∀ d ∈ devices, (method d).result = .ok (values d)) :
    okResults (devices.map method) = devices.map values := by
  induction devices with
  | nil => rfl
  | cons d rest ih =>
    simp only [List.map_cons, okResults, List.filterMap_cons,
      h d (List.mem_cons_self d rest)]
    rw [show (Except.ok (values d) : Except String α).toOption = some (values d) from rfl]
    have ih' := ih (fun d' hd' => h d' (List.mem_cons_of_mem d hd'))
    rw [okResults] at ih'
    rw [ih']

theorem firstFailure_dur_le {α : Type} (ts : List (SimTask α)) (t : SimTask α)
    (ht : t ∈ ts) (hf : t.fails = true) :
    ∃ d e, firstFailure ts = some (d, e) ∧ d ≤ t.dur := by
  induction ts with
  | nil => cases ht
  | cons t0 rest ih =>
    rcases List.mem_cons.mp ht with h0 | hrest
    · subst h0
      cases hres : t.result with
      | ok v => rw [SimTask.fails, hres] at hf; simp at hf
      | error e =>
        cases hacc : firstFailure rest with
        | none => exact ⟨t.dur, e, by simp [firstFailure, hres, hacc], le_refl _⟩
        | some p =>
          obtain ⟨d, e'⟩ := p
          by_cases hlt : d < t.dur
          · exact ⟨d, e', by simp [firstFailure, hres, hacc, hlt], le_of_lt hlt⟩
          · exact ⟨t.dur, e, by simp [firstFailure, hres, hacc, hlt], le_refl _⟩
    · obtain ⟨d, e, hfi, hle⟩ := ih hrest
      cases hres : t0.result with
      | ok v => exact ⟨d, e, by simp [firstFailure, hres, hfi], hle⟩
      | error e0 =>
        by_cases hlt : d < t0.dur
        · exact ⟨d, e, by simp [firstFailure, hres, hfi, hlt], hle⟩
        · exact ⟨t0.dur, e0, by simp [firstFailure, hres, hfi, hlt],
            le_trans (not_lt.mp hlt) hle⟩

/-- C3 counterexample: two member tasks, the first raising after 1 time
unit, the second succeeding after 5. `asyncio.gather` as used by
`call_device_method`/`_send_command_all` (default
`return_exceptions=False`) delivers the failure at time 1, strictly
before the 5-unit peer finishes, so the set operation does not fail "only
after all peers have been given a chance to finish" as the claim states. -/
theorem c3_counterexample :
    gather [⟨1, Except.error "device raised"⟩, ⟨5, Except.ok (0 : Nat)⟩] =
        Except.error "device raised" ∧
      gatherCompletesAt [⟨1, Except.error "device raised"⟩, ⟨5, Except.ok (0 : Nat)⟩] = 1 ∧
      gatherCompletesAt [⟨1, Except.error "device raised"⟩, ⟨5, Except.ok (0 : Nat)⟩] <
        (⟨5, Except.ok (0 : Nat)⟩ : SimTask Nat).dur := by
  refine ⟨rfl, rfl, by decide⟩

/-- C3 amended: every fan-out runs one task per member concurrently; when
all members succeed the awaiter resumes once every task has finished with
the result list in member order; when any member raises, the fan-out
raises (fail-fast) no later than the earliest-failing member's completion
time — it does not wait for the remaining peers, whose results are
discarded. -/
theorem c3_gather_fail_fast {δ α : Type} (devices : List δ) (method : δ → SimTask α)
    (values : δ → α) :
    ((∀ d ∈ devices, (method d).result = .ok (values d)) →
        call_device_method devices method = .ok (devices.map values) ∧
        gatherCompletesAt (devices.map method) =
          ((devices.map method).map SimTask.dur).foldl max 0) ∧
      ((∃ d ∈ devices, (method d).fails = true) →
        (∃ e, call_device_method devices method = Except.error e) ∧
        ∀ d ∈ devices, (method d).fails = true →
          gatherCompletesAt (devices.map method) ≤ (method d).dur) := by
  constructor
  · intro h
    have hok : ∀ t ∈ devices.map method, t.fails = false := by
      intro t ht
      obtain ⟨d, hd, rfl⟩ := List.mem_map.mp ht
      rw [SimTask.fails, h d hd]
    have hnone := firstFailure_eq_none_of_ok _ hok
    constructor
    · simp only [call_device_method, gather, hnone, okResults_map devices method values h]
    · simp only [gatherCompletesAt, hnone]
  · intro hex
    obtain ⟨d0, hd0, hf0⟩ := hex
    have hmem : method d0 ∈ devices.map method := List.mem_map_of_mem method hd0
    obtain ⟨dm, em, hfi, hdm⟩ := firstFailure_dur_le _ _ hmem hf0
    constructor
    · exact ⟨em, by simp only [call_device_method, gather, hfi]⟩
    · intro d hd hfd
      obtain ⟨dm', em', hfi', hle'⟩ := firstFailure_dur_le (devices.map method)
        (method d) (List.mem_map_of_mem method hd) hfd
      simp only [gatherCompletesAt, hfi']
      exact hle'

/-- Witness for C3 amended: an all-success fan-out preserving member
order, and a fan-out with one failing member that raises. -/
theorem c3_gather_fail_fast_witness :
    call_device_method [0, 1] (fun d : Nat => ⟨d + 1, Except.ok (d * 10)⟩) =
        Except.ok [0, 10] ∧
      (∃ e, call_device_method [0, 1]
        (fun d : Nat =>
          if d = 0 then ⟨1, Except.error "boom"⟩ else ⟨5, Except.ok d⟩) =
          Except.error e) :=
  ⟨by
    have h := (c3_gather_fail_fast [0, 1]
      (fun d : Nat => ⟨d + 1, Except.ok (d * 10)⟩) (fun d => d * 10)).1
      (by intro d hd; rfl)
    exact h.1,
    by
    have h := (c3_gather_fail_fast [0, 1]
      (fun d : Nat => if d = 0 then ⟨1, Except.error "boom"⟩ else ⟨5, Except.ok d⟩)
      (fun d => d)).2 ⟨0, by simp, rfl⟩
    exact h.1⟩

end GortDeviceSet

namespace GortStandards

theorem activeRow_setActiveRow (s : StandardsState) (row row0 : StdRow)
    (h : activeRow s = some row0) :
    activeRow (setActiveRow s row) = some row := by
  rw [activeRow, List.get?_eq_getElem?] at h
  obtain ⟨hlt, _⟩ := List.getElem?_eq_some.mp h
  show (s.rows.set (s.current_standard - 1) row).get? (s.current_standard - 1) = some row
  rw [List.get?_eq_getElem?]
  exact List.getElem?_set_self hlt

theorem rows_length_ne_zero_of_activeRow (s : StandardsState) (row : StdRow)
    (h : activeRow s = some row) : ¬ s.rows.length = 0 := by
  rw [activeRow, List.get?_eq_getElem?] at h
  obtain ⟨hlt, _⟩ := List.getElem?_eq_some.mp h
  omega

/-- C6 counterexample: in the reachable state where `_iterate` has
advanced past standard 1 (its budget expired) but guiding on standard 2
failed to converge within 60 s — so standard 2 was skipped and never
acquired — calling `cancel` leaves the active target (standard 2) with
`observed = 0` and a null `t1`, although it had not yet been marked
observed; the claim that `cancel` always closes the active target's
interval in that situation is therefore false on the code, which also
requires `acquired == 1`. -/
theorem c6_counterexample :
    (activeRow (advanceStandard (startState 2 0 "P1") 100 100 "P2" false)).map
        StdRow.observed = some false ∧
      cancel (advanceStandard (startState 2 0 "P1") 100 100 "P2" false) 150 =
        advanceStandard (startState 2 0 "P1") 100 100 "P2" false ∧
      (activeRow (cancel (advanceStandard (startState 2 0 "P1") 100 100 "P2" false) 150)).map
        StdRow.t1 = some none := by
  refine ⟨rfl, ?_, rfl⟩
  decide

/-- C6 amended: `Standards.cancel` is idempotent, and whenever the
currently active target has been *acquired* and not yet observed, it
leaves that target's row with `observed = 1` and end timestamp `now`; an
active target that was never acquired (guide-convergence timeout skip) is
left untouched. -/
theorem c6_cancel_idempotent_closes_acquired (s : StandardsState) (t t' : ℚ) :
    cancel (cancel s t) t' = cancel s t ∧
      (∀ row, activeRow s = some row → row.acquired = true → row.observed = false →
        activeRow (cancel s t) = some { row with observed := true, t1 := some t }) := by
  constructor
  · by_cases h0 : s.rows.length = 0
    · have e : ∀ u, cancel s u = s := fun u => by simp only [cancel, if_pos h0]
      rw [e t, e t']
    · cases hrow : activeRow s with
      | none =>
        have e : ∀ u, cancel s u = s := fun u => by
          simp only [cancel, if_neg h0, hrow]
        rw [e t, e t']
      | some row =>
        cases hcond : (row.acquired && !row.observed) with
        | false =>
          have e : ∀ u, cancel s u = s := fun u => by
            simp only [cancel, if_neg h0, hrow, hcond]
            simp
          rw [e t, e t']
        | true =>
          have et : cancel s t =
              setActiveRow s { row with observed := true, t1 := some t } := by
            simp only [cancel, if_neg h0, hrow, hcond]
            simp
          have hrow1 : activeRow (setActiveRow s { row with observed := true, t1 := some t }) =
              some { row with observed := true, t1 := some t } :=
            activeRow_setActiveRow s _ row hrow
          have h01 : ¬ (setActiveRow s { row with observed := true, t1 := some t }).rows.length = 0 := by
            show ¬ (s.rows.set (s.current_standard - 1) _).length = 0
            rw [List.length_set]
            exact h0
          rw [et]
          simp only [cancel, if_neg h01, hrow1]
          simp
  · intro row hrow hacq hobs
    have h0 := rows_length_ne_zero_of_activeRow s row hrow
    have hcond : (row.acquired && !row.observed) = true := by rw [hacq, hobs]; rfl
    simp only [cancel, if_neg h0, hrow, hcond]
    simp only [if_pos]
    exact activeRow_setActiveRow s _ row hrow

/-- Witness for C6 amended: a one-standard state whose active target is
acquired and unobserved; `cancel` at t=5 closes it and a second `cancel`
at t=9 changes nothing. -/
theorem c6_cancel_witness :
    cancel (cancel (startState 1 0 "P1") 5) 9 = cancel (startState 1 0 "P1") 5 ∧
      activeRow (cancel (startState 1 0 "P1") 5) =
        some ⟨true, true, some 0, some 5, "P1"⟩ :=
  ⟨(c6_cancel_idempotent_closes_acquired (startState 1 0 "P1") 5 9).1,
    (c6_cancel_idempotent_closes_acquired (startState 1 0 "P1") 5 9).2
      { acquired := true, observed := false, t0 := some 0, t1 := none, fibre := "P1" }
      (by decide) rfl rfl⟩

end GortStandards

namespace GortOverwatcher

/-- C7 evaluation at the claim's arming tick: with conditions safe, no
calibration running and the overwatcher enabled, `handle_daytime` on the
actual night→day edge (previous tick night, current tick day) leaves
`_pending_close_dome` unarmed — the source tests
`not self.previous_state.night` where its own comment ("Only close the
dome if we have changed from night to day") requires
`self.previous_state.night` — while a subsequent day→day tick (shown here
with an observation still running, so the close branch does not consume
the flag) does arm it. -/
theorem c7_code_evaluation :
    (handle_daytime false true true false false false 0 0 false false).pending_close_dome
        = false ∧
      (handle_daytime false true true false true false 0 0 false false).pending_close_dome
        = false ∧
      (handle_daytime false true false false true false 0 0 false false).pending_close_dome
        = true := by
  decide

end GortOverwatcher

namespace GortDome

/-- C9 evaluation: parsing the enclosure label set `["MOTOR_OPENING"]`
yields the flag union `OPENING|MOVING`, and `DomeHelper.open` on that
status is not a no-op: it falls through to `_move` (stop + motion
command), because the source's early-return compares the status for exact
equality with the bare `OPENING` flag — a value `status()` never returns,
as it always pairs OPENING/CLOSING with MOVING. The same holds for
`close` on `["MOTOR_CLOSING"]`. The claim's plain-OPEN/CLOSED no-op and
UNKNOWN stop-first behaviours do hold. -/
theorem c9_code_evaluation :
    status ["MOTOR_OPENING"] = flagOPENING.union flagMOVING ∧
      openDome (status ["MOTOR_OPENING"]) = DomeAction.move ∧
      closeDome (status ["MOTOR_CLOSING"]) = DomeAction.move ∧
      openDome flagOPEN = DomeAction.noop ∧
      closeDome flagCLOSED = DomeAction.noop ∧
      openDome flagUNKNOWN = DomeAction.stopThenMove ∧
      closeDome flagUNKNOWN = DomeAction.stopThenMove := by
  decide

end GortDome

namespace GortNotifier

theorem lookup_set_history_self (h : List (String × ℚ)) (k : String) (v : ℚ) :
    lookup_history (set_history h k v) k = some v :=
  GortCore.dictGet?_dictSet_self h k v

/-- C8: calling `notify` twice with identical message, level, error, Slack
channel and payload within the 60 s repeat window (repeat notifications
not explicitly allowed) results in exactly one outward Slack delivery —
the first call delivers, the second is suppressed from Slack — while both
calls are written to the log and posted to the database. -/
theorem c8_notify_dedup (history : List (String × ℚ)) (configChannel : String)
    (a : NotifyArgs) (now now' : ℚ)
    (hfresh : lookup_history history
      (create_notification_hash (resolve_message a.message a.error)
        (resolve_level a.level a.error) a.error
        (resolve_channel a.slack_channel configChannel) a.payload) = none)
    (hch : a.slack_channel ≠ SlackChannelArg.no)
    (hrep : a.allow_repeat_notifications = false)
    (hmin : a.min_time_between_repeat_notifications = 60)
    (hlog : a.log = true) (hdb : a.database = true)
    (h0 : 0 ≤ now) (hwin : now' < now + 60) :
    (notify history configChannel a now).slack_delivered = true ∧
      (notify (notify history configChannel a now).history
        configChannel a now').slack_delivered = false ∧
      (notify history configChannel a now).logged = true ∧
      (notify history configChannel a now).db_write = true ∧
      (notify (notify history configChannel a now).history
        configChannel a now').logged = true ∧
      (notify (notify history configChannel a now).history
        configChannel a now').db_write = true := by
  obtain ⟨s, hs⟩ : ∃ s, resolve_channel a.slack_channel configChannel = .name s := by
    cases hsc : a.slack_channel with
    | noArg => exact ⟨configChannel, rfl⟩
    | yes => exact ⟨configChannel, rfl⟩
    | no => exact absurd hsc hch
    | name s2 => exact ⟨s2, rfl⟩
  rw [hs] at hfresh
  have hkey : lookup_history (set_history history
      (create_notification_hash (resolve_message a.message a.error)
        (resolve_level a.level a.error) a.error
        (SlackChannelArg.name s) a.payload)
      (now + a.min_time_between_repeat_notifications))
      (create_notification_hash (resolve_message a.message a.error)
        (resolve_level a.level a.error) a.error
        (SlackChannelArg.name s) a.payload) = some (now + 60) := by
    rw [hmin]
    exact lookup_set_history_self history _ (now + 60)
  have hne : ((now + 60 : ℚ) == 0) = false := by
    rw [beq_eq_false_iff_ne]
    intro hcontra
    linarith
  refine ⟨?_, ?_, hlog, hdb, hlog, hdb⟩
  · simp [notify, hfresh, hrep, hs]
  · simp [notify, hkey, hrep, hs, hne, hwin]

/-- Witness for C8: the same warning notified twice, 10 s apart, starting
from an empty history. -/
theorem c8_notify_dedup_witness :
    (notify [] "lvm-overwatcher"
      { message := some "dome failure", level := some "warning" } 0).slack_delivered
        = true ∧
      (notify (notify [] "lvm-overwatcher"
          { message := some "dome failure", level := some "warning" } 0).history
        "lvm-overwatcher"
        { message := some "dome failure", level := some "warning" } 10).slack_delivered
        = false ∧
      (notify [] "lvm-overwatcher"
        { message := some "dome failure", level := some "warning" } 0).logged = true ∧
      (notify [] "lvm-overwatcher"
        { message := some "dome failure", level := some "warning" } 0).db_write = true ∧
      (notify (notify [] "lvm-overwatcher"
          { message := some "dome failure", level := some "warning" } 0).history
        "lvm-overwatcher"
        { message := some "dome failure", level := some "warning" } 10).logged = true ∧
      (notify (notify [] "lvm-overwatcher"
          { message := some "dome failure", level := some "warning" } 0).history
        "lvm-overwatcher"
        { message := some "dome failure", level := some "warning" } 10).db_write = true :=
  c8_notify_dedup [] "lvm-overwatcher"
    { message := some "dome failure", level := some "warning" } 0 10
    rfl (by simp) rfl rfl rfl rfl (by norm_num) (by norm_num)

end GortNotifier
